import Mathlib

/-
Shallow embedding of the devopsfaith/krakend-etcd service-discovery client:
config.go (factory and configuration parsing), client.go (etcd v2 protocol
client) and the etcd v3 protocol client, together with theorems settling the
specification claims against this embedding.

External collaborators (the Go standard library and the coreos etcd client
libraries) enter the embedding as explicit function parameters:
  - `loadKP` models tls.LoadX509KeyPair (Except: parse failure or a parsed
    key pair handle);
  - `readF`  models ioutil.ReadFile (none = read error, some = file content);
  - `en2` / `en3` model the connection construction etcd.New / etcdv3.New
    (some e = construction error, none = success);
  - `pd` models time.ParseDuration (none = parse error, some = nanoseconds);
  - `store` functions model the store reads behind etcd.KeysAPI.Get and
    clientv3.Client.Get.
Durations (Go time.Duration, an int64 of nanoseconds) are modelled as Int.
Go method calls on a nil interface/pointer receiver field panic; the
embedding records this as an explicit `panicked` outcome.
-/

/-- Errors visible in the embedded code: the four sentinel errors declared in
config.go plus opaque carriers for errors produced by external collaborators. -/
inductive GoErr where
  | errNoConfig
  | errBadConfig
  | errNoMachines
  | errNilClient
  | keyPairErr (msg : String)
  | connectErr (msg : String)
  | storeErr (msg : String)
  deriving DecidableEq, Repr

/-- Outcome of running a piece of Go code that can panic (unchecked type
assertion, nil dereference) instead of returning. -/
inductive Panics (α : Type) where
  | panicked
  | value (a : α)
  deriving DecidableEq, Repr

/-- Outcome of a Go call returning (value, error), where the value is a slice
that may be nil (`none`) and the call may also panic. -/
inductive GoCall (α : Type) where
  | panicked
  | ret (val : Option α) (err : Option GoErr)
  deriving DecidableEq, Repr

/-- The values of an untyped Go configuration map (interface{} values as they
appear in config.ExtraConfig). -/
inductive CfgVal where
  | str (s : String)
  | num (n : Int)
  | boolean (b : Bool)
  | arr (xs : List CfgVal)
  | obj (fields : List (String × CfgVal))

/-- A Go map[string]interface{}, keys unique, as an association list. -/
def CfgMap : Type := List (String × CfgVal)

/-- Go map indexing `v, ok := m[k]`. -/
def cfgLookup (m : CfgMap) (k : String) : Option CfgVal :=
  (m.find? (fun p => p.1 == k)).map (fun p => p.2)

/-- ClientOptions of config.go (lines 34-42); durations in nanoseconds. -/
structure ClientOptions where
  cert : String := ""
  key : String := ""
  cacert : String := ""
  dialTimeout : Int := 0
  dialKeepAlive : Int := 0
  dialKeepAliveTimeout : Int := 0
  headerTimeoutPerRequest : Int := 0
  deriving DecidableEq, Repr

/-- defaultTTL = 3 * time.Second (config.go line 13), in nanoseconds. -/
def defaultTTL : Int := 3 * 1000000000

/-- Namespace key under which the factory looks up its config block. -/
def Namespace : String := "github_com/devopsfaith/krakend-etcd"

/-- A parsed client certificate/key pair, as returned by the external
tls.LoadX509KeyPair; its content is opaque to the embedded code. -/
structure TLSCertificate where
  keyPairHandle : String
  deriving DecidableEq, Repr

/-- An x509 certificate pool; the embedded code only ever builds one by
appending the PEM bytes read from the CA file (the AppendCertsFromPEM result
is ignored by the source). -/
structure CertPool where
  pemContent : String
  deriving DecidableEq, Repr

/-- The tls.Config value assembled by both constructors: the client
certificate list and the optional custom root CA pool. -/
structure TLSConfig where
  certificates : List TLSCertificate
  rootCAs : Option CertPool := none
  deriving DecidableEq, Repr

/-- The transport picked by the v2 constructor (client.go lines 34-57):
either the etcd package's global DefaultTransport (which receives none of the
ClientOptions values), or the custom TLS transport whose dialer is built from
options.DialTimeout and options.DialKeepAlive. -/
inductive Transport where
  | defaultTransport
  | tlsCustom (tlsClientConfig : TLSConfig) (dialTimeout : Int) (dialKeepAlive : Int)
  deriving DecidableEq, Repr

/-- The dial timeout this code installed into the transport, if any: the
DefaultTransport branch passes no option into the transport. -/
def Transport.appliedDialTimeout : Transport → Option Int
  | .defaultTransport => none
  | .tlsCustom _ dt _ => some dt

/-- The dial keep-alive this code installed into the transport, if any. -/
def Transport.appliedDialKeepAlive : Transport → Option Int
  | .defaultTransport => none
  | .tlsCustom _ _ ka => some ka

/-- The etcd.Config value passed to etcd.New by the v2 constructor
(client.go lines 59-63). -/
structure EtcdV2Config where
  endpoints : List String
  transport : Transport
  headerTimeoutPerRequest : Int
  deriving DecidableEq, Repr

/-- The etcdv3.Config value passed to etcdv3.New by the v3 constructor
(lines 50-56 of the v3 client file). -/
structure EtcdV3Config where
  endpoints : List String
  dialTimeout : Int
  dialKeepAliveTime : Int
  dialKeepAliveTimeout : Int
  tls : Option TLSConfig
  deriving DecidableEq, Repr

/-- The v2 client struct (client.go lines 14-17): the keysAPI interface
handle, modelled by the connection configuration it was built from; `none`
models a nil interface (uninitialized client). The context field is runtime
state and carries no data read by the embedded logic. -/
structure GoClientV2 where
  keysAPI : Option EtcdV2Config
  deriving DecidableEq, Repr

/-- The v3 client struct (lines 13-17 of the v3 client file): the *etcdv3.Client
handle (none = nil pointer), and the per-request timeout. -/
structure GoClientV3 where
  client : Option EtcdV3Config
  timeout : Int
  deriving DecidableEq, Repr

/-- The Client interface value returned by the factory: one of the two
generation-specific clients. -/
inductive GoClient where
  | v2 (c : GoClientV2)
  | v3 (c : GoClientV3)
  deriving DecidableEq, Repr

/-- Transport construction of the v2 constructor, client.go lines 34-57:
DefaultTransport unless both cert and key are set, in which case the key pair
is loaded (failure aborts construction), the CA file is read best-effort
(RootCAs installed only when the read succeeds), and a custom transport
carrying the TLS config and the two dial options is produced. -/
def buildTransportV2 (loadKP : String → String → Except GoErr TLSCertificate)
    (readF : String → Option String) (options : ClientOptions) :
    Except GoErr Transport :=
  if options.cert ≠ "" ∧ options.key ≠ "" then
    match loadKP options.cert options.key with
    | .error e => .error e
    | .ok tlsCert =>
      let tlsCfg : TLSConfig := { certificates := [tlsCert] }
      let tlsCfg :=
        match readF options.cacert with
        | some caCertCt => { tlsCfg with rootCAs := some { pemContent := caCertCt } }
        | none => tlsCfg
      .ok (Transport.tlsCustom tlsCfg options.dialTimeout options.dialKeepAlive)
  else
    .ok Transport.defaultTransport

/-- NewClient, client.go lines 23-72: default the three durations, build the
transport, call etcd.New with endpoints/transport/header timeout, and wrap
the resulting keysAPI handle. -/
def NewClient (loadKP : String → String → Except GoErr TLSCertificate)
    (readF : String → Option String) (en2 : EtcdV2Config → Option GoErr)
    (machines : List String) (options : ClientOptions) :
    Option GoClientV2 × Option GoErr :=
  let options := if options.dialTimeout = 0 then { options with dialTimeout := defaultTTL } else options
  let options := if options.dialKeepAlive = 0 then { options with dialKeepAlive := defaultTTL } else options
  let options := if options.headerTimeoutPerRequest = 0 then { options with headerTimeoutPerRequest := defaultTTL } else options
  match buildTransportV2 loadKP readF options with
  | .error err => (none, some err)
  | .ok transport =>
    let cfg : EtcdV2Config :=
      { endpoints := machines, transport := transport,
        headerTimeoutPerRequest := options.headerTimeoutPerRequest }
    match en2 cfg with
    | some err => (none, some err)
    | none => (some { keysAPI := some cfg }, none)

/-- TLS configuration construction of the v3 constructor, lines 34-48 of the
v3 client file: nil unless both cert and key are set; key pair load failure
aborts; CA file read is best-effort. -/
def buildTLSConfigV3 (loadKP : String → String → Except GoErr TLSCertificate)
    (readF : String → Option String) (options : ClientOptions) :
    Except GoErr (Option TLSConfig) :=
  if options.cert ≠ "" ∧ options.key ≠ "" then
    match loadKP options.cert options.key with
    | .error e => .error e
    | .ok tlsCert =>
      let tlsCfg : TLSConfig := { certificates := [tlsCert] }
      let tlsCfg :=
        match readF options.cacert with
        | some caCertCt => { tlsCfg with rootCAs := some { pemContent := caCertCt } }
        | none => tlsCfg
      .ok (some tlsCfg)
  else
    .ok none

/-- NewClientV3, lines 23-66 of the v3 client file: default the three
durations, build the optional TLS config, call etcdv3.New with
endpoints/DialTimeout/DialKeepAliveTime/DialKeepAliveTimeout/TLS (note:
DialKeepAliveTimeout receives options.HeaderTimeoutPerRequest), and wrap the
handle together with timeout = options.HeaderTimeoutPerRequest. -/
def NewClientV3 (loadKP : String → String → Except GoErr TLSCertificate)
    (readF : String → Option String) (en3 : EtcdV3Config → Option GoErr)
    (machines : List String) (options : ClientOptions) :
    Option GoClientV3 × Option GoErr :=
  let options := if options.dialTimeout = 0 then { options with dialTimeout := defaultTTL } else options
  let options := if options.dialKeepAlive = 0 then { options with dialKeepAlive := defaultTTL } else options
  let options := if options.headerTimeoutPerRequest = 0 then { options with headerTimeoutPerRequest := defaultTTL } else options
  match buildTLSConfigV3 loadKP readF options with
  | .error err => (none, some err)
  | .ok tlsCfg =>
    let cfg : EtcdV3Config :=
      { endpoints := machines, dialTimeout := options.dialTimeout,
        dialKeepAliveTime := options.dialKeepAlive,
        dialKeepAliveTimeout := options.headerTimeoutPerRequest,
        tls := tlsCfg }
    match en3 cfg with
    | some err => (none, some err)
    | none => (some { client := some cfg, timeout := options.headerTimeoutPerRequest }, none)

/-- A value record under a v3 prefix read: etcd mvccpb.KeyValue with the key
and the value bytes (the source reads only ev.Value, converted to string). -/
structure KeyValue where
  key : String
  value : String
  deriving DecidableEq, Repr

/-- The v3 range response (etcdv3.GetResponse): the value records and the
store-reported total match count (an int64). -/
structure RangeResponse where
  kvs : List KeyValue
  count : Int
  deriving DecidableEq, Repr

/-- A child node of a v2 response node; the source reads only its Value. -/
structure V2ChildNode where
  value : String
  deriving DecidableEq, Repr

/-- The node of a v2 etcd response: its direct Value and its children. -/
structure V2Node where
  value : String
  nodes : List V2ChildNode
  deriving DecidableEq, Repr

/-- The v2 etcd response (etcd.Response): the root node of the read. -/
structure V2Response where
  node : V2Node
  deriving DecidableEq, Repr

/-- GetEntries of the v2 client, client.go lines 75-93. The call
c.keysAPI.Get on a nil interface handle panics (the source performs no nil
check); otherwise the store read is issued, errors are returned verbatim, a
node with no children and a non-empty direct value yields that single value,
and otherwise the children's values are collected in store order. -/
def GetEntriesV2 (store : String → Except GoErr V2Response)
    (c : GoClientV2) (key : String) : GoCall (List String) :=
  match c.keysAPI with
  | none => .panicked
  | some _ =>
    match store key with
    | .error err => .ret none (some err)
    | .ok resp =>
      if resp.node.nodes.length = 0 ∧ resp.node.value ≠ "" then
        .ret (some [resp.node.value]) none
      else
        .ret (some (resp.node.nodes.map V2ChildNode.value)) none

/-- GetEntries of the v3 client, lines 69-96 of the v3 client file. A nil
client handle returns (nil, ErrNilClient) before any I/O; otherwise the read
is issued under a sub-context bounded by c.timeout (modelled by passing the
timeout to the store), errors are returned verbatim, and zero records or a
count that disagrees with the number of records yields (nil, nil); otherwise
the record values are collected in store order. -/
def GetEntriesV3 (store : Int → String → Except GoErr RangeResponse)
    (c : GoClientV3) (key : String) : GoCall (List String) :=
  match c.client with
  | none => .ret none (some GoErr.errNilClient)
  | some _ =>
    match store c.timeout key with
    | .error err => .ret none (some err)
    | .ok resp =>
      if resp.kvs.length = 0 ∨ resp.count ≠ (resp.kvs.length : Int) then
        .ret none none
      else
        .ret (some (resp.kvs.map KeyValue.value)) none

/-- The list produced by n successive GetEntries calls of the v3 client
against an unchanged store. -/
def repeatedCallsV3 (store : Int → String → Except GoErr RangeResponse)
    (c : GoClientV3) (key : String) (n : Nat) : List (GoCall (List String)) :=
  List.replicate n (GetEntriesV3 store c key)

/-- The slice of values a GetEntries call handed back (a nil slice and an
empty slice both hold zero values). -/
def returnedValues : GoCall (List String) → List String
  | .ret v _ => v.getD []
  | .panicked => []

/-- The error component a GetEntries call handed back. -/
def callErr : GoCall (List String) → Option GoErr
  | .ret _ e => e
  | .panicked => none

/-- One send on the caller's channel, labelled by its origin in the source:
the sentinel send placed before the receive loop, or the send performed for
the i-th change-notification batch received. -/
inductive SendEvent where
  | sentinel
  | fromBatch (i : Nat)
  deriving DecidableEq, Repr

/-- A v3 watch notification batch (etcdv3.WatchResponse); the source reads
nothing of it, it only counts one send per batch. -/
structure WatchResponse where
  events : List String
  deriving DecidableEq, Repr

/-- The v3 receive loop (lines 106-108 of the v3 client file): one send per
batch received on the watch channel, in arrival order; i is the index of the
next batch. -/
def watchRangeLoopV3 (i : Nat) : List WatchResponse → List SendEvent
  | [] => []
  | _ :: rest => SendEvent.fromBatch i :: watchRangeLoopV3 (i + 1) rest

/-- WatchPrefix of the v3 client, lines 99-109 of the v3 client file: a nil
client handle returns at once with no send; otherwise the watch is opened,
the sentinel is sent, and the loop sends once per received batch. `batches`
is the (finite prefix of the) stream of batches the watch channel delivers. -/
def WatchPrefixV3 (c : GoClientV3) (batches : List WatchResponse) :
    Panics (List SendEvent) :=
  match c.client with
  | none => .value []
  | some _ => .value (SendEvent.sentinel :: watchRangeLoopV3 0 batches)

/-- The v2 receive loop (client.go lines 99-104): each watcher.Next call
either yields a response (one send, continue) or an error (return); i is the
index of the next batch. -/
def watchNextLoopV2 (i : Nat) : List (Except GoErr V2Response) → List SendEvent
  | [] => []
  | .error _ :: _ => []
  | .ok _ :: rest => SendEvent.fromBatch i :: watchNextLoopV2 (i + 1) rest

/-- The number of change batches the v2 loop receives before the first
watcher error ends it. -/
def countLeadingOk : List (Except GoErr V2Response) → Nat
  | [] => 0
  | .error _ :: _ => 0
  | .ok _ :: rest => countLeadingOk rest + 1

/-- WatchPrefix of the v2 client, client.go lines 96-105. The call
c.keysAPI.Watcher on a nil interface handle panics (the source performs no
nil check); otherwise the watcher is created, the sentinel is sent, and the
loop sends once per successful watcher.Next until the first error. `nexts`
is the (finite prefix of the) stream of watcher.Next results. -/
def WatchPrefixV2 (c : GoClientV2) (nexts : List (Except GoErr V2Response)) :
    Panics (List SendEvent) :=
  match c.keysAPI with
  | none => .panicked
  | some _ => .value (SendEvent.sentinel :: watchNextLoopV2 0 nexts)

/-- parseVersion, config.go lines 83-93: absent selector defaults to "v2";
a present value goes through the unchecked type assertion value.(string),
which panics on a non-string; a string other than "v2"/"v3" is replaced by
"v2". The error component is always nil. -/
def parseVersion (cfg : CfgMap) : Panics (String × Option GoErr) :=
  match cfgLookup cfg "client_version" with
  | none => .value ("v2", none)
  | some value =>
    match value with
    | .str result =>
      if result ≠ "v2" ∧ result ≠ "v3" then .value ("v2", none)
      else .value (result, none)
    | _ => .panicked

/-- The collection loop of parseMachines (config.go lines 105-109): append
each entry that type-asserts to a string (comma-ok form), skip the rest. -/
def collectMachines : List CfgVal → List String → List String
  | [], result => result
  | m :: rest, result =>
    match m with
    | .str machine => collectMachines rest (result ++ [machine])
    | _ => collectMachines rest result

/-- parseMachines, config.go lines 95-114: missing "machines" key or a
non-sequence value yields ([], ErrNoMachines); otherwise string entries are
collected and a resulting empty list still yields ErrNoMachines. -/
def parseMachines (cfg : CfgMap) : List String × Option GoErr :=
  match cfgLookup cfg "machines" with
  | none => ([], some GoErr.errNoMachines)
  | some machines =>
    match machines with
    | .arr ms =>
      let result := collectMachines ms []
      if result.length = 0 then (result, some GoErr.errNoMachines)
      else (result, none)
    | _ => ([], some GoErr.errNoMachines)

/-- parseDuration, config.go lines 156-162: a non-string value is an error;
a string is handed to the external time.ParseDuration, modelled by pd
(none = parse error). The embedded caller only distinguishes success from
error, so the result is an Option. -/
def parseDuration (pd : String → Option Int) (v : CfgVal) : Option Int :=
  match v with
  | .str s => pd s
  | _ => none

/-- One string option field of parseOptions: absent leaves the current
value; a present value goes through the unchecked assertion o.(string),
which panics on a non-string. -/
def setStrField (cur : String) (o : Option CfgVal) : Panics String :=
  match o with
  | none => .value cur
  | some (.str s) => .value s
  | some _ => .panicked

/-- One duration option field of parseOptions: absent, or present but
failing parseDuration, leaves the current value; a parsed duration replaces
it. This never panics (parseDuration uses the comma-ok assertion). -/
def setDurField (pd : String → Option Int) (cur : Int) (o : Option CfgVal) : Int :=
  match o with
  | none => cur
  | some v =>
    match parseDuration pd v with
    | some d => d
    | none => cur

/-- parseOptions, config.go lines 116-154: no "options" key yields the zero
ClientOptions; a non-map "options" value panics at the unchecked assertion;
cert/key/cacert are read with unchecked string assertions; the three
duration fields are read leniently. DialKeepAliveTimeout is never set. -/
def parseOptions (pd : String → Option Int) (cfg : CfgMap) : Panics ClientOptions :=
  match cfgLookup cfg "options" with
  | none => .value {}
  | some v =>
    match v with
    | .obj tmp =>
      match setStrField "" (cfgLookup tmp "cert"),
            setStrField "" (cfgLookup tmp "key"),
            setStrField "" (cfgLookup tmp "cacert") with
      | .value cert, .value key, .value cacert =>
        .value
          { cert := cert, key := key, cacert := cacert,
            dialTimeout := setDurField pd 0 (cfgLookup tmp "dial_timeout"),
            dialKeepAlive := setDurField pd 0 (cfgLookup tmp "dial_keepalive"),
            headerTimeoutPerRequest := setDurField pd 0 (cfgLookup tmp "header_timeout") }
      | _, _, _ => .panicked
    | _ => .panicked

/-- New, config.go lines 59-81: look up the namespaced block (absence is
ErrNoConfig), check its shape (non-map is ErrBadConfig), parse machines and
version (propagating their errors), then dispatch on the version to the
generation-specific constructor, parsing options at the call site. -/
def New (loadKP : String → String → Except GoErr TLSCertificate)
    (readF : String → Option String)
    (en2 : EtcdV2Config → Option GoErr) (en3 : EtcdV3Config → Option GoErr)
    (pd : String → Option Int) (e : CfgMap) :
    Panics (Option GoClient × Option GoErr) :=
  match cfgLookup e Namespace with
  | none => .value (none, some GoErr.errNoConfig)
  | some v =>
    match v with
    | .obj tmp =>
      match parseMachines tmp with
      | (_, some err) => .value (none, some err)
      | (machines, none) =>
        match parseVersion tmp with
        | .panicked => .panicked
        | .value (_, some err) => .value (none, some err)
        | .value (version, none) =>
          if version == "v3" then
            match parseOptions pd tmp with
            | .panicked => .panicked
            | .value opts =>
              let r := NewClientV3 loadKP readF en3 machines opts
              .value (r.1.map GoClient.v3, r.2)
          else
            match parseOptions pd tmp with
            | .panicked => .panicked
            | .value opts =>
              let r := NewClient loadKP readF en2 machines opts
              .value (r.1.map GoClient.v2, r.2)
    | _ => .value (none, some GoErr.errBadConfig)

/-- The string entries of a configuration sequence, in order: the
specification's reading of "non-string entries are silently skipped". -/
def filterStrings (ms : List CfgVal) : List String :=
  ms.filterMap fun m =>
    match m with
    | .str s => some s
    | _ => none

theorem collectMachines_eq (ms : List CfgVal) :
    ∀ acc, collectMachines ms acc = acc ++ filterStrings ms := by
  induction ms with
  | nil => intro acc; simp [collectMachines, filterStrings]
  | cons m rest ih =>
    intro acc
    cases m <;>
      simp [collectMachines, filterStrings, ih, List.filterMap_cons, List.append_assoc]

theorem watchRangeLoopV3_eq_range (l : List WatchResponse) :
    ∀ i, watchRangeLoopV3 i l = (List.range' i l.length).map SendEvent.fromBatch := by
  induction l with
  | nil => intro i; rfl
  | cons x rest ih =>
    intro i
    simp [watchRangeLoopV3, ih, List.range'_succ]

theorem watchRangeLoopV3_zero (l : List WatchResponse) :
    watchRangeLoopV3 0 l = (List.range l.length).map SendEvent.fromBatch := by
  rw [watchRangeLoopV3_eq_range, List.range_eq_range']

theorem watchNextLoopV2_eq_range (l : List (Except GoErr V2Response)) :
    ∀ i, watchNextLoopV2 i l = (List.range' i (countLeadingOk l)).map SendEvent.fromBatch := by
  induction l with
  | nil => intro i; rfl
  | cons x rest ih =>
    intro i
    cases x with
    | error e => rfl
    | ok r => simp [watchNextLoopV2, countLeadingOk, ih, List.range'_succ]

theorem watchNextLoopV2_zero (l : List (Except GoErr V2Response)) :
    watchNextLoopV2 0 l = (List.range (countLeadingOk l)).map SendEvent.fromBatch := by
  rw [watchNextLoopV2_eq_range, List.range_eq_range']

/-- A sample v3 connection configuration used by concrete witnesses. -/
def fixCfgV3 : EtcdV3Config :=
  { endpoints := ["http://a:2379"], dialTimeout := defaultTTL,
    dialKeepAliveTime := defaultTTL, dialKeepAliveTimeout := defaultTTL,
    tls := none }

/-- A sample initialized v3 client used by concrete witnesses. -/
def fixClientV3 : GoClientV3 := { client := some fixCfgV3, timeout := defaultTTL }

/-- A sample v2 connection configuration used by concrete witnesses. -/
def fixCfgV2 : EtcdV2Config :=
  { endpoints := ["http://a:2379"], transport := Transport.defaultTransport,
    headerTimeoutPerRequest := defaultTTL }

/-- A sample initialized v2 client used by concrete witnesses. -/
def fixClientV2 : GoClientV2 := { keysAPI := some fixCfgV2 }

/-- A v2 client whose keysAPI interface handle is nil. -/
def nilClientV2 : GoClientV2 := { keysAPI := none }

/-- A v3 client whose connection handle is nil, as the repository's own
tests build it (newFakeClientV3). -/
def nilClientV3 : GoClientV3 := { client := none, timeout := defaultTTL }

/-- A v3 store stub whose reads always fail; a nil-handle call never
reaches it. -/
def fixStoreV3 : Int → String → Except GoErr RangeResponse :=
  fun _ _ => Except.error (GoErr.storeErr "unreachable")

/-- A v2 store stub whose reads always fail; a nil-handle call never
reaches it. -/
def fixStoreV2 : String → Except GoErr V2Response :=
  fun _ => Except.error (GoErr.storeErr "unreachable")

/-- Claim C1: in the v3 generation, a successful store read that returns
zero value records or a total count disagreeing with the number of records
returned makes List return an absent (nil) result and no error, and every
one of n repeated calls against the unchanged store returns the same. -/
theorem c1_v3_count_mismatch_empty
    (store : Int → String → Except GoErr RangeResponse) (c : GoClientV3)
    (cfg : EtcdV3Config) (key : String) (resp : RangeResponse) (n : Nat)
    (hc : c.client = some cfg)
    (hread : store c.timeout key = Except.ok resp)
    (hbad : resp.kvs.length = 0 ∨ resp.count ≠ (resp.kvs.length : Int)) :
    GetEntriesV3 store c key = GoCall.ret none none ∧
    (repeatedCallsV3 store c key n).all
      (fun r => r == GoCall.ret none none) = true := by
  have h : GetEntriesV3 store c key = GoCall.ret none none := by
    simp only [GetEntriesV3, hc, hread]
    rw [if_pos hbad]
  refine ⟨h, ?_⟩
  simp only [repeatedCallsV3, List.all_eq_true]
  intro r hr
  have hrr := List.eq_of_mem_replicate hr
  simp [hrr, h]

/-- Concrete run of claim C1: one record returned, reported count 2. -/
theorem c1_witness :
    GetEntriesV3 (fun _ _ => Except.ok { kvs := [{ key := "k", value := "a" }], count := 2 })
      fixClientV3 "svc" = GoCall.ret none none ∧
    (repeatedCallsV3
      (fun _ _ => Except.ok { kvs := [{ key := "k", value := "a" }], count := 2 })
      fixClientV3 "svc" 3).all (fun r => r == GoCall.ret none none) = true :=
  c1_v3_count_mismatch_empty _ fixClientV3 fixCfgV3 "svc"
    { kvs := [{ key := "k", value := "a" }], count := 2 } 3 rfl rfl
    (Or.inr (by decide))

/-- Claim C2: for every Watch invocation on a client with a non-null
connection handle, in both generations, the trace of channel sends is the
sentinel followed by exactly one signal per change-notification batch
received, in the order the batches were observed. -/
theorem c2_watch_sentinel_then_one_per_batch
    (cv3 : GoClientV3) (cfg3 : EtcdV3Config) (h3 : cv3.client = some cfg3)
    (batches : List WatchResponse)
    (cv2 : GoClientV2) (cfg2 : EtcdV2Config) (h2 : cv2.keysAPI = some cfg2)
    (nexts : List (Except GoErr V2Response)) :
    WatchPrefixV3 cv3 batches =
      Panics.value (SendEvent.sentinel ::
        (List.range batches.length).map SendEvent.fromBatch) ∧
    WatchPrefixV2 cv2 nexts =
      Panics.value (SendEvent.sentinel ::
        (List.range (countLeadingOk nexts)).map SendEvent.fromBatch) := by
  constructor
  · simp [WatchPrefixV3, h3, watchRangeLoopV3_zero]
  · simp [WatchPrefixV2, h2, watchNextLoopV2_zero]

/-- Concrete run of claim C2: a v3 watch with zero pending batches emits
exactly the sentinel; a v2 watch that receives one batch and then a stream
error emits the sentinel and then one batch signal. -/
theorem c2_witness :
    WatchPrefixV3 fixClientV3 [] = Panics.value [SendEvent.sentinel] ∧
    WatchPrefixV2 fixClientV2
      [Except.ok { node := { value := "", nodes := [{ value := "a" }] } },
       Except.error (GoErr.storeErr "stream closed")] =
      Panics.value [SendEvent.sentinel, SendEvent.fromBatch 0] := by
  have h := c2_watch_sentinel_then_one_per_batch fixClientV3 fixCfgV3 rfl []
    fixClientV2 fixCfgV2 rfl
    [Except.ok { node := { value := "", nodes := [{ value := "a" }] } },
     Except.error (GoErr.storeErr "stream closed")]
  refine ⟨?_, ?_⟩
  · rw [h.1]; rfl
  · rw [h.2]; rfl

/-- Claim C3 counterexample: in the v2 generation, a client with a nil
connection handle makes GetEntries panic (nil interface dereference) rather
than return the ErrNilClient sentinel, and makes WatchPrefix panic rather
than return silently; the claim fails for the v2 generation. -/
theorem c3_counterexample :
    GetEntriesV2 fixStoreV2 nilClientV2 "svc" = GoCall.panicked ∧
    GetEntriesV2 fixStoreV2 nilClientV2 "svc" ≠
      GoCall.ret none (some GoErr.errNilClient) ∧
    WatchPrefixV2 nilClientV2 [] = Panics.panicked ∧
    WatchPrefixV2 nilClientV2 [] ≠ Panics.value [] := by
  refine ⟨rfl, ?_, rfl, ?_⟩ <;> decide

/-- Claim C3 amended: only the v3 generation guards a null connection
handle: its List returns (nil, ErrNilClient) before any I/O and its Watch
returns at once without sending; the v2 generation performs no null check
and panics in both operations. -/
theorem c3_amended_nil_handle
    (store3 : Int → String → Except GoErr RangeResponse) (cv3 : GoClientV3)
    (h3 : cv3.client = none) (key3 : String) (batches : List WatchResponse)
    (store2 : String → Except GoErr V2Response) (cv2 : GoClientV2)
    (h2 : cv2.keysAPI = none) (key2 : String)
    (nexts : List (Except GoErr V2Response)) :
    GetEntriesV3 store3 cv3 key3 = GoCall.ret none (some GoErr.errNilClient) ∧
    WatchPrefixV3 cv3 batches = Panics.value [] ∧
    GetEntriesV2 store2 cv2 key2 = GoCall.panicked ∧
    WatchPrefixV2 cv2 nexts = Panics.panicked := by
  refine ⟨?_, ?_, ?_, ?_⟩ <;>
    simp [GetEntriesV3, WatchPrefixV3, GetEntriesV2, WatchPrefixV2, h3, h2]

/-- Concrete run of amended claim C3 on nil-handle clients of both
generations. -/
theorem c3_witness :
    GetEntriesV3 fixStoreV3 nilClientV3 "svc" =
      GoCall.ret none (some GoErr.errNilClient) ∧
    WatchPrefixV3 nilClientV3 [] = Panics.value [] ∧
    GetEntriesV2 fixStoreV2 nilClientV2 "svc" = GoCall.panicked ∧
    WatchPrefixV2 nilClientV2 [] = Panics.panicked :=
  c3_amended_nil_handle fixStoreV3 nilClientV3 rfl "svc" []
    fixStoreV2 nilClientV2 rfl "svc" []

/-- Claim C4: a successful v3 List with no count mismatch hands back exactly
the store's records' values in store-reported order (a zero-record read
hands back a nil slice holding zero values); in the v2 generation a node
with no children but a non-empty direct value yields exactly that one
value, and otherwise the children's values are returned in store order. -/
theorem c4_list_values_in_store_order
    (store3 : Int → String → Except GoErr RangeResponse) (cv3 : GoClientV3)
    (cfg3 : EtcdV3Config) (key3 : String) (resp3 : RangeResponse)
    (h3 : cv3.client = some cfg3)
    (hread3 : store3 cv3.timeout key3 = Except.ok resp3)
    (hcount : resp3.count = (resp3.kvs.length : Int))
    (store2a : String → Except GoErr V2Response) (cv2 : GoClientV2)
    (cfg2 : EtcdV2Config) (key2 : String) (resp2a : V2Response)
    (h2 : cv2.keysAPI = some cfg2)
    (hread2a : store2a key2 = Except.ok resp2a)
    (hleaf : resp2a.node.nodes.length = 0) (hval : resp2a.node.value ≠ "")
    (store2b : String → Except GoErr V2Response) (resp2b : V2Response)
    (hread2b : store2b key2 = Except.ok resp2b)
    (hkids : ¬(resp2b.node.nodes.length = 0 ∧ resp2b.node.value ≠ "")) :
    returnedValues (GetEntriesV3 store3 cv3 key3) = resp3.kvs.map KeyValue.value ∧
    callErr (GetEntriesV3 store3 cv3 key3) = none ∧
    GetEntriesV2 store2a cv2 key2 = GoCall.ret (some [resp2a.node.value]) none ∧
    GetEntriesV2 store2b cv2 key2 =
      GoCall.ret (some (resp2b.node.nodes.map V2ChildNode.value)) none := by
  have hv3 : GetEntriesV3 store3 cv3 key3 =
      if resp3.kvs.length = 0 then GoCall.ret none none
      else GoCall.ret (some (resp3.kvs.map KeyValue.value)) none := by
    simp only [GetEntriesV3, h3, hread3]
    by_cases hz : resp3.kvs.length = 0
    · rw [if_pos (Or.inl hz), if_pos hz]
    · rw [if_neg ?_, if_neg hz]
      rintro (h | h)
      · exact hz h
      · exact h hcount
  refine ⟨?_, ?_, ?_, ?_⟩
  · rw [hv3]
    by_cases hz : resp3.kvs.length = 0
    · rw [if_pos hz]
      have hnil : resp3.kvs = [] := List.length_eq_zero.mp hz
      simp [returnedValues, hnil]
    · rw [if_neg hz]
      simp [returnedValues]
  · rw [hv3]
    by_cases hz : resp3.kvs.length = 0
    · rw [if_pos hz]; rfl
    · rw [if_neg hz]; rfl
  · simp only [GetEntriesV2, h2, hread2a]
    rw [if_pos ⟨hleaf, hval⟩]
  · simp only [GetEntriesV2, h2, hread2b]
    rw [if_neg hkids]

/-- Concrete run of claim C4: a v3 read with two records and count 2, a v2
leaf node holding "solo", and a v2 node with two children. -/
theorem c4_witness :
    returnedValues (GetEntriesV3
      (fun _ _ => Except.ok
        { kvs := [{ key := "k1", value := "a" }, { key := "k2", value := "b" }],
          count := 2 }) fixClientV3 "svc") = ["a", "b"] ∧
    callErr (GetEntriesV3
      (fun _ _ => Except.ok
        { kvs := [{ key := "k1", value := "a" }, { key := "k2", value := "b" }],
          count := 2 }) fixClientV3 "svc") = none ∧
    GetEntriesV2 (fun _ => Except.ok { node := { value := "solo", nodes := [] } })
      fixClientV2 "svc" = GoCall.ret (some ["solo"]) none ∧
    GetEntriesV2
      (fun _ => Except.ok
        { node := { value := "", nodes := [{ value := "a" }, { value := "b" }] } })
      fixClientV2 "svc" = GoCall.ret (some ["a", "b"]) none := by
  have h := c4_list_values_in_store_order
    (fun _ _ => Except.ok
      { kvs := [{ key := "k1", value := "a" }, { key := "k2", value := "b" }],
        count := 2 }) fixClientV3 fixCfgV3 "svc"
    { kvs := [{ key := "k1", value := "a" }, { key := "k2", value := "b" }],
      count := 2 } rfl rfl (by decide)
    (fun _ => Except.ok { node := { value := "solo", nodes := [] } })
    fixClientV2 fixCfgV2 "svc" { node := { value := "solo", nodes := [] } }
    rfl rfl (by decide) (by decide)
    (fun _ => Except.ok
      { node := { value := "", nodes := [{ value := "a" }, { value := "b" }] } })
    { node := { value := "", nodes := [{ value := "a" }, { value := "b" }] } }
    rfl (by decide)
  simpa using h

/-- A key pair loader stub that always parses, used by concrete witnesses. -/
def fixLoadKP : String → String → Except GoErr TLSCertificate :=
  fun c k => Except.ok { keyPairHandle := c ++ "," ++ k }

/-- A key pair loader stub that always fails to parse. -/
def fixLoadKPbad : String → String → Except GoErr TLSCertificate :=
  fun _ _ => Except.error (GoErr.keyPairErr "bad pair")

/-- A file reader stub on which every read fails (no such file). -/
def fixReadF : String → Option String := fun _ => none

/-- An etcd.New stub that always connects. -/
def fixEn2 : EtcdV2Config → Option GoErr := fun _ => none

/-- An etcdv3.New stub that always connects. -/
def fixEn3 : EtcdV3Config → Option GoErr := fun _ => none

/-- A time.ParseDuration stub that parses only "2s". -/
def fixPd : String → Option Int :=
  fun s => if s = "2s" then some 2000000000 else none

/-- Claim C5 counterexample: a configuration block whose client_version is
the number 3 (a value other than "v2"/"v3") makes parseVersion panic at the
unchecked string type assertion, so the factory panics instead of
dispatching to the v2 constructor; the factory does fail on such a value. -/
theorem c5_counterexample :
    New fixLoadKP fixReadF fixEn2 fixEn3 fixPd
      [(Namespace, CfgVal.obj
        [("machines", CfgVal.arr [CfgVal.str "http://a:2379"]),
         ("client_version", CfgVal.num 3)])] = Panics.panicked ∧
    parseVersion [("client_version", CfgVal.num 3)] = Panics.panicked :=
  ⟨rfl, rfl⟩

/-- Claim C5 amended: an absent client_version, or a present string value
other than "v2"/"v3", resolves to "v2" and the factory dispatches to the v2
constructor without failing; a present non-string selector value instead
panics at the unchecked type assertion. -/
theorem c5_amended_version_defaults_to_v2
    (loadKP : String → String → Except GoErr TLSCertificate)
    (readF : String → Option String)
    (en2 : EtcdV2Config → Option GoErr) (en3 : EtcdV3Config → Option GoErr)
    (pd : String → Option Int) (tmp : CfgMap) (machines : List String)
    (opts : ClientOptions)
    (hver : cfgLookup tmp "client_version" = none ∨
      ∃ s, cfgLookup tmp "client_version" = some (CfgVal.str s) ∧
        s ≠ "v2" ∧ s ≠ "v3")
    (hm : parseMachines tmp = (machines, none))
    (ho : parseOptions pd tmp = Panics.value opts) :
    parseVersion tmp = Panics.value ("v2", none) ∧
    New loadKP readF en2 en3 pd [(Namespace, CfgVal.obj tmp)] =
      Panics.value
        (((NewClient loadKP readF en2 machines opts).1).map GoClient.v2,
          (NewClient loadKP readF en2 machines opts).2) := by
  have hv : parseVersion tmp = Panics.value ("v2", none) := by
    rcases hver with h | ⟨s, h, h2, h3⟩
    · simp [parseVersion, h]
    · simp [parseVersion, h, h2, h3]
  refine ⟨hv, ?_⟩
  have hlook : cfgLookup [(Namespace, CfgVal.obj tmp)] Namespace =
      some (CfgVal.obj tmp) := rfl
  simp [New, hlook, hm, hv, ho]

/-- The v2 connection configuration the factory builds for one machine and
empty options, used by the claim C5 run. -/
def c5expCfg : EtcdV2Config :=
  { endpoints := ["http://a:2379"], transport := Transport.defaultTransport,
    headerTimeoutPerRequest := defaultTTL }

/-- Concrete run of amended claim C5: client_version "vX" resolves to the
v2 constructor and a non-failing client. -/
theorem c5_witness :
    parseVersion [("machines", CfgVal.arr [CfgVal.str "http://a:2379"]),
      ("client_version", CfgVal.str "vX")] = Panics.value ("v2", none) ∧
    New fixLoadKP fixReadF fixEn2 fixEn3 fixPd
      [(Namespace, CfgVal.obj
        [("machines", CfgVal.arr [CfgVal.str "http://a:2379"]),
         ("client_version", CfgVal.str "vX")])] =
      Panics.value (some (GoClient.v2 { keysAPI := some c5expCfg }), none) := by
  have h := c5_amended_version_defaults_to_v2 fixLoadKP fixReadF fixEn2 fixEn3
    fixPd
    [("machines", CfgVal.arr [CfgVal.str "http://a:2379"]),
     ("client_version", CfgVal.str "vX")]
    ["http://a:2379"] {}
    (Or.inr ⟨"vX", rfl, by decide, by decide⟩) rfl rfl
  refine ⟨h.1, ?_⟩
  rw [h.2]
  rfl

/-- Claim C6: non-string entries of the machines list are silently skipped;
when the machines key is absent, when its value is not a sequence, and when
skipping leaves zero addresses, the factory returns a null client and the
"no machines" error. -/
theorem c6_no_machines
    (loadKP : String → String → Except GoErr TLSCertificate)
    (readF : String → Option String)
    (en2 : EtcdV2Config → Option GoErr) (en3 : EtcdV3Config → Option GoErr)
    (pd : String → Option Int)
    (tmp : CfgMap) (ms : List CfgVal)
    (hm : cfgLookup tmp "machines" = some (CfgVal.arr ms))
    (tmpA : CfgMap) (hA : cfgLookup tmpA "machines" = none)
    (tmpB : CfgMap) (vB : CfgVal) (hB : cfgLookup tmpB "machines" = some vB)
    (hBshape : ∀ xs, vB ≠ CfgVal.arr xs)
    (tmpC : CfgMap) (msC : List CfgVal)
    (hC : cfgLookup tmpC "machines" = some (CfgVal.arr msC))
    (hCempty : filterStrings msC = [])
    (tmpD : CfgMap) (msD : List CfgVal) (optsD : ClientOptions)
    (hD : cfgLookup tmpD "machines" = some (CfgVal.arr msD))
    (hDne : filterStrings msD ≠ [])
    (hDver : cfgLookup tmpD "client_version" = none)
    (hDopts : parseOptions pd tmpD = Panics.value optsD) :
    (parseMachines tmp).1 = filterStrings ms ∧
    New loadKP readF en2 en3 pd [(Namespace, CfgVal.obj tmpA)] =
      Panics.value (none, some GoErr.errNoMachines) ∧
    New loadKP readF en2 en3 pd [(Namespace, CfgVal.obj tmpB)] =
      Panics.value (none, some GoErr.errNoMachines) ∧
    New loadKP readF en2 en3 pd [(Namespace, CfgVal.obj tmpC)] =
      Panics.value (none, some GoErr.errNoMachines) ∧
    parseMachines tmpD = (filterStrings msD, none) ∧
    New loadKP readF en2 en3 pd [(Namespace, CfgVal.obj tmpD)] =
      Panics.value
        (((NewClient loadKP readF en2 (filterStrings msD) optsD).1).map
          GoClient.v2,
          (NewClient loadKP readF en2 (filterStrings msD) optsD).2) := by
  have h1 : (parseMachines tmp).1 = filterStrings ms := by
    simp only [parseMachines, hm, collectMachines_eq, List.nil_append]
    split <;> rfl
  have hpA : parseMachines tmpA = ([], some GoErr.errNoMachines) := by
    simp [parseMachines, hA]
  have hpB : parseMachines tmpB = ([], some GoErr.errNoMachines) := by
    simp only [parseMachines, hB]
  have hpC : parseMachines tmpC = ([], some GoErr.errNoMachines) := by
    simp only [parseMachines, hC, collectMachines_eq, List.nil_append, hCempty]
    rfl
  have hlookA : cfgLookup [(Namespace, CfgVal.obj tmpA)] Namespace =
      some (CfgVal.obj tmpA) := rfl
  have hlookB : cfgLookup [(Namespace, CfgVal.obj tmpB)] Namespace =
      some (CfgVal.obj tmpB) := rfl
  have hlookC : cfgLookup [(Namespace, CfgVal.obj tmpC)] Namespace =
      some (CfgVal.obj tmpC) := rfl
  have hlenD : ¬(filterStrings msD).length = 0 :=
    fun h => hDne (List.length_eq_zero.mp h)
  have hpD : parseMachines tmpD = (filterStrings msD, none) := by
    simp only [parseMachines, hD, collectMachines_eq, List.nil_append]
    rw [if_neg hlenD]
  have hvD : parseVersion tmpD = Panics.value ("v2", none) := by
    simp [parseVersion, hDver]
  have hlookD : cfgLookup [(Namespace, CfgVal.obj tmpD)] Namespace =
      some (CfgVal.obj tmpD) := rfl
  refine ⟨h1, ?_, ?_, ?_, hpD, ?_⟩
  · simp [New, hlookA, hpA]
  · simp [New, hlookB, hpB]
  · simp [New, hlookC, hpC]
  · simp [New, hlookD, hpD, hvD, hDopts]

/-- The v2 connection configuration the factory builds after skipping the
non-string machines entry, used by the claim C6 run. -/
def c6expCfg : EtcdV2Config :=
  { endpoints := ["http://a:2379", "http://b:2379"],
    transport := Transport.defaultTransport,
    headerTimeoutPerRequest := defaultTTL }

/-- Concrete run of claim C6: a machines list holding two strings and a
number keeps only the strings, reports no error, and the factory goes on to
construct a working v2 client from the two surviving addresses; an empty
block, a string-valued machines key, and an all-non-string machines list
each yield the "no machines" error and a null client. -/
theorem c6_witness :
    (parseMachines [("machines",
      CfgVal.arr [CfgVal.str "http://a:2379", CfgVal.num 1,
        CfgVal.str "http://b:2379"])]).1 = ["http://a:2379", "http://b:2379"] ∧
    New fixLoadKP fixReadF fixEn2 fixEn3 fixPd [(Namespace, CfgVal.obj [])] =
      Panics.value (none, some GoErr.errNoMachines) ∧
    New fixLoadKP fixReadF fixEn2 fixEn3 fixPd
      [(Namespace, CfgVal.obj [("machines", CfgVal.str "http://a:2379")])] =
      Panics.value (none, some GoErr.errNoMachines) ∧
    New fixLoadKP fixReadF fixEn2 fixEn3 fixPd
      [(Namespace, CfgVal.obj
        [("machines", CfgVal.arr [CfgVal.num 1, CfgVal.boolean true])])] =
      Panics.value (none, some GoErr.errNoMachines) ∧
    parseMachines [("machines",
      CfgVal.arr [CfgVal.str "http://a:2379", CfgVal.num 1,
        CfgVal.str "http://b:2379"])] =
      (["http://a:2379", "http://b:2379"], none) ∧
    New fixLoadKP fixReadF fixEn2 fixEn3 fixPd
      [(Namespace, CfgVal.obj [("machines",
        CfgVal.arr [CfgVal.str "http://a:2379", CfgVal.num 1,
          CfgVal.str "http://b:2379"])])] =
      Panics.value (some (GoClient.v2 { keysAPI := some c6expCfg }), none) := by
  have h := c6_no_machines fixLoadKP fixReadF fixEn2 fixEn3 fixPd
    [("machines",
      CfgVal.arr [CfgVal.str "http://a:2379", CfgVal.num 1,
        CfgVal.str "http://b:2379"])]
    [CfgVal.str "http://a:2379", CfgVal.num 1, CfgVal.str "http://b:2379"] rfl
    [] rfl
    [("machines", CfgVal.str "http://a:2379")] (CfgVal.str "http://a:2379") rfl
    (fun xs hcontra => CfgVal.noConfusion hcontra)
    [("machines", CfgVal.arr [CfgVal.num 1, CfgVal.boolean true])]
    [CfgVal.num 1, CfgVal.boolean true] rfl rfl
    [("machines",
      CfgVal.arr [CfgVal.str "http://a:2379", CfgVal.num 1,
        CfgVal.str "http://b:2379"])]
    [CfgVal.str "http://a:2379", CfgVal.num 1, CfgVal.str "http://b:2379"] {}
    rfl (by decide) rfl rfl
  refine ⟨?_, h.2.1, h.2.2.1, h.2.2.2.1, ?_, ?_⟩
  · rw [h.1]
    rfl
  · rw [h.2.2.2.2.1]
    rfl
  · rw [h.2.2.2.2.2]
    rfl

theorem parseOptions_durations (pd : String → Option Int) (o : CfgMap)
    (r : ClientOptions)
    (hr : parseOptions pd [("options", CfgVal.obj o)] = Panics.value r) :
    r.dialTimeout = setDurField pd 0 (cfgLookup o "dial_timeout") ∧
    r.dialKeepAlive = setDurField pd 0 (cfgLookup o "dial_keepalive") ∧
    r.headerTimeoutPerRequest = setDurField pd 0 (cfgLookup o "header_timeout") ∧
    r.dialKeepAliveTimeout = 0 := by
  have hlook : cfgLookup [("options", CfgVal.obj o)] "options" =
      some (CfgVal.obj o) := rfl
  simp only [parseOptions, hlook] at hr
  split at hr
  · cases hr
    exact ⟨rfl, rfl, rfl, rfl⟩
  · cases hr

/-- Claim C7: duration fields absent from the options block, and duration
fields present but not parsable as a duration string, leave the zero value
in the parsed options without error; and each of the three durations left
zero resolves to the 3-second default in both constructors (observed in the
v2 TLS transport and header timeout and in every field of the v3 config). -/
theorem c7_timeout_defaults
    (pd : String → Option Int)
    (o1 : CfgMap) (r1 : ClientOptions)
    (h1dt : cfgLookup o1 "dial_timeout" = none)
    (h1ka : cfgLookup o1 "dial_keepalive" = none)
    (h1ht : cfgLookup o1 "header_timeout" = none)
    (hr1 : parseOptions pd [("options", CfgVal.obj o1)] = Panics.value r1)
    (o2 : CfgMap) (r2 : ClientOptions) (vdt vka vht : CfgVal)
    (h2dt : cfgLookup o2 "dial_timeout" = some vdt)
    (hpdt : parseDuration pd vdt = none)
    (h2ka : cfgLookup o2 "dial_keepalive" = some vka)
    (hpka : parseDuration pd vka = none)
    (h2ht : cfgLookup o2 "header_timeout" = some vht)
    (hpht : parseDuration pd vht = none)
    (hr2 : parseOptions pd [("options", CfgVal.obj o2)] = Panics.value r2)
    (loadKP : String → String → Except GoErr TLSCertificate)
    (readF : String → Option String)
    (en2 : EtcdV2Config → Option GoErr) (en3 : EtcdV3Config → Option GoErr)
    (machines : List String) (opts : ClientOptions) (tc : TLSCertificate)
    (hdt0 : opts.dialTimeout = 0) (hka0 : opts.dialKeepAlive = 0)
    (hht0 : opts.headerTimeoutPerRequest = 0)
    (hcert : opts.cert ≠ "") (hkey : opts.key ≠ "")
    (hl : loadKP opts.cert opts.key = Except.ok tc)
    (hrf : readF opts.cacert = none)
    (hen2 : ∀ cfg, en2 cfg = none) (hen3 : ∀ cfg, en3 cfg = none) :
    defaultTTL = 3 * 1000000000 ∧
    r1.dialTimeout = 0 ∧ r1.dialKeepAlive = 0 ∧
    r1.headerTimeoutPerRequest = 0 ∧
    r2.dialTimeout = 0 ∧ r2.dialKeepAlive = 0 ∧
    r2.headerTimeoutPerRequest = 0 ∧
    NewClient loadKP readF en2 machines opts =
      (some ⟨some ⟨machines,
        Transport.tlsCustom ⟨[tc], none⟩ defaultTTL defaultTTL,
        defaultTTL⟩⟩, none) ∧
    NewClientV3 loadKP readF en3 machines opts =
      (some ⟨some ⟨machines, defaultTTL, defaultTTL, defaultTTL,
        some ⟨[tc], none⟩⟩, defaultTTL⟩, none) := by
  obtain ⟨e1dt, e1ka, e1ht, _⟩ := parseOptions_durations pd o1 r1 hr1
  obtain ⟨e2dt, e2ka, e2ht, _⟩ := parseOptions_durations pd o2 r2 hr2
  refine ⟨rfl, ?_, ?_, ?_, ?_, ?_, ?_, ?_, ?_⟩
  · rw [e1dt, h1dt]; rfl
  · rw [e1ka, h1ka]; rfl
  · rw [e1ht, h1ht]; rfl
  · rw [e2dt, h2dt]; simp [setDurField, hpdt]
  · rw [e2ka, h2ka]; simp [setDurField, hpka]
  · rw [e2ht, h2ht]; simp [setDurField, hpht]
  · simp [NewClient, buildTransportV2, hdt0, hka0, hht0, hcert, hkey, hl,
      hrf, hen2]
  · simp [NewClientV3, buildTLSConfigV3, hdt0, hka0, hht0, hcert, hkey, hl,
      hrf, hen3]

/-- Concrete run of claim C7: an empty options block and an options block
whose three duration fields are unparsable both parse to zero durations,
and a zeroed ClientOptions resolves every duration to the 3-second default
in both constructors. -/
theorem c7_witness :
    defaultTTL = 3 * 1000000000 ∧
    ({} : ClientOptions).dialTimeout = 0 ∧
    ({} : ClientOptions).dialKeepAlive = 0 ∧
    ({} : ClientOptions).headerTimeoutPerRequest = 0 ∧
    ({} : ClientOptions).dialTimeout = 0 ∧
    ({} : ClientOptions).dialKeepAlive = 0 ∧
    ({} : ClientOptions).headerTimeoutPerRequest = 0 ∧
    NewClient fixLoadKP fixReadF fixEn2 ["http://a:2379"]
      { cert := "client.pem", key := "client.key" } =
      (some ⟨some ⟨["http://a:2379"],
        Transport.tlsCustom ⟨[⟨"client.pem,client.key"⟩], none⟩
          defaultTTL defaultTTL,
        defaultTTL⟩⟩, none) ∧
    NewClientV3 fixLoadKP fixReadF fixEn3 ["http://a:2379"]
      { cert := "client.pem", key := "client.key" } =
      (some ⟨some ⟨["http://a:2379"], defaultTTL, defaultTTL, defaultTTL,
        some ⟨[⟨"client.pem,client.key"⟩], none⟩⟩, defaultTTL⟩, none) :=
  c7_timeout_defaults fixPd [] {} rfl rfl rfl rfl
    [("dial_timeout", CfgVal.str "zz"), ("dial_keepalive", CfgVal.num 5),
     ("header_timeout", CfgVal.str "ww")] {}
    (CfgVal.str "zz") (CfgVal.num 5) (CfgVal.str "ww")
    rfl rfl rfl rfl rfl rfl rfl
    fixLoadKP fixReadF fixEn2 fixEn3 ["http://a:2379"]
    { cert := "client.pem", key := "client.key" } ⟨"client.pem,client.key"⟩
    rfl rfl rfl (by decide) (by decide) rfl rfl (fun _ => rfl) (fun _ => rfl)

/-- Claim C8 counterexample: a v2 construction with no cert/key pair and a
supplied 7s dial timeout and 9s keep-alive produces the package default
transport, which carries neither supplied value (only the TLS branch ever
installs them); so the claim fails for the v2 generation. -/
theorem c8_counterexample :
    NewClient fixLoadKP fixReadF fixEn2 ["http://a:2379"]
      { dialTimeout := 7000000000, dialKeepAlive := 9000000000 } =
      (some ⟨some ⟨["http://a:2379"], Transport.defaultTransport,
        defaultTTL⟩⟩, none) ∧
    Transport.appliedDialTimeout Transport.defaultTransport ≠ some 7000000000 ∧
    Transport.appliedDialKeepAlive Transport.defaultTransport ≠ some 9000000000 := by
  refine ⟨rfl, ?_, ?_⟩ <;> decide

/-- Claim C8 amended: with no cert/key pair supplied, the v3 constructor
produces a plain (nil-TLS) connection config with the supplied dial timeout
and keep-alive applied, while the v2 constructor installs the package
default plain transport, to which the supplied dial timeout and keep-alive
are not applied. -/
theorem c8_amended_plain_transport
    (loadKP : String → String → Except GoErr TLSCertificate)
    (readF : String → Option String)
    (en2 : EtcdV2Config → Option GoErr) (en3 : EtcdV3Config → Option GoErr)
    (machines : List String) (opts : ClientOptions)
    (hplain : ¬(opts.cert ≠ "" ∧ opts.key ≠ ""))
    (hdt : opts.dialTimeout ≠ 0) (hka : opts.dialKeepAlive ≠ 0)
    (hht : opts.headerTimeoutPerRequest ≠ 0)
    (hen2 : ∀ cfg, en2 cfg = none) (hen3 : ∀ cfg, en3 cfg = none) :
    NewClientV3 loadKP readF en3 machines opts =
      (some ⟨some ⟨machines, opts.dialTimeout, opts.dialKeepAlive,
        opts.headerTimeoutPerRequest, none⟩,
        opts.headerTimeoutPerRequest⟩, none) ∧
    NewClient loadKP readF en2 machines opts =
      (some ⟨some ⟨machines, Transport.defaultTransport,
        opts.headerTimeoutPerRequest⟩⟩, none) ∧
    Transport.appliedDialTimeout Transport.defaultTransport = none ∧
    Transport.appliedDialKeepAlive Transport.defaultTransport = none := by
  refine ⟨?_, ?_, rfl, rfl⟩
  · simp [NewClientV3, buildTLSConfigV3, hplain, hdt, hka, hht, hen3]
  · simp [NewClient, buildTransportV2, hplain, hdt, hka, hht, hen2]

/-- Concrete run of amended claim C8 with a 7s dial timeout, 9s keep-alive
and 2s header timeout and no credentials. -/
theorem c8_witness :
    NewClientV3 fixLoadKP fixReadF fixEn3 ["http://a:2379"]
      { dialTimeout := 7000000000, dialKeepAlive := 9000000000,
        headerTimeoutPerRequest := 2000000000 } =
      (some ⟨some ⟨["http://a:2379"], 7000000000, 9000000000, 2000000000,
        none⟩, 2000000000⟩, none) ∧
    NewClient fixLoadKP fixReadF fixEn2 ["http://a:2379"]
      { dialTimeout := 7000000000, dialKeepAlive := 9000000000,
        headerTimeoutPerRequest := 2000000000 } =
      (some ⟨some ⟨["http://a:2379"], Transport.defaultTransport,
        2000000000⟩⟩, none) ∧
    Transport.appliedDialTimeout Transport.defaultTransport = none ∧
    Transport.appliedDialKeepAlive Transport.defaultTransport = none := by
  have h := c8_amended_plain_transport fixLoadKP fixReadF fixEn2 fixEn3
    ["http://a:2379"]
    { dialTimeout := 7000000000, dialKeepAlive := 9000000000,
      headerTimeoutPerRequest := 2000000000 }
    (by decide) (by decide) (by decide) (by decide)
    (fun _ => rfl) (fun _ => rfl)
  simpa using h

/-- Claim C9: with cert and key both supplied, a key pair load/parse failure
fails construction with exactly that error in both generations; an absent or
unreadable CA bundle file never causes an error and construction proceeds
with the client certificate installed and no custom trusted root set, in
both generations. -/
theorem c9_tls_credential_errors
    (loadKP loadKPbad : String → String → Except GoErr TLSCertificate)
    (readF : String → Option String)
    (en2 : EtcdV2Config → Option GoErr) (en3 : EtcdV3Config → Option GoErr)
    (machines : List String) (opts : ClientOptions) (tc : TLSCertificate)
    (e : GoErr)
    (hcert : opts.cert ≠ "") (hkey : opts.key ≠ "")
    (hbad : loadKPbad opts.cert opts.key = Except.error e)
    (hok : loadKP opts.cert opts.key = Except.ok tc)
    (hca : readF opts.cacert = none)
    (hen2 : ∀ cfg, en2 cfg = none) (hen3 : ∀ cfg, en3 cfg = none)
    (hdt : opts.dialTimeout ≠ 0) (hka : opts.dialKeepAlive ≠ 0)
    (hht : opts.headerTimeoutPerRequest ≠ 0) :
    NewClient loadKPbad readF en2 machines opts = (none, some e) ∧
    NewClientV3 loadKPbad readF en3 machines opts = (none, some e) ∧
    NewClient loadKP readF en2 machines opts =
      (some ⟨some ⟨machines,
        Transport.tlsCustom ⟨[tc], none⟩ opts.dialTimeout opts.dialKeepAlive,
        opts.headerTimeoutPerRequest⟩⟩, none) ∧
    NewClientV3 loadKP readF en3 machines opts =
      (some ⟨some ⟨machines, opts.dialTimeout, opts.dialKeepAlive,
        opts.headerTimeoutPerRequest, some ⟨[tc], none⟩⟩,
        opts.headerTimeoutPerRequest⟩, none) := by
  refine ⟨?_, ?_, ?_, ?_⟩
  · simp [NewClient, buildTransportV2, hcert, hkey, hbad, hdt, hka, hht]
  · simp [NewClientV3, buildTLSConfigV3, hcert, hkey, hbad, hdt, hka, hht]
  · simp [NewClient, buildTransportV2, hcert, hkey, hok, hca, hdt, hka, hht,
      hen2]
  · simp [NewClientV3, buildTLSConfigV3, hcert, hkey, hok, hca, hdt, hka,
      hht, hen3]

/-- Concrete run of claim C9: an unparsable key pair fails both
constructions with the loader's error; a parsable pair with an unreadable
CA file succeeds in both generations with no custom root CA. -/
theorem c9_witness :
    NewClient fixLoadKPbad fixReadF fixEn2 ["http://a:2379"]
      { cert := "c.pem", key := "k.pem", dialTimeout := 2000000000,
        dialKeepAlive := 2000000000, headerTimeoutPerRequest := 2000000000 } =
      (none, some (GoErr.keyPairErr "bad pair")) ∧
    NewClientV3 fixLoadKPbad fixReadF fixEn3 ["http://a:2379"]
      { cert := "c.pem", key := "k.pem", dialTimeout := 2000000000,
        dialKeepAlive := 2000000000, headerTimeoutPerRequest := 2000000000 } =
      (none, some (GoErr.keyPairErr "bad pair")) ∧
    NewClient fixLoadKP fixReadF fixEn2 ["http://a:2379"]
      { cert := "c.pem", key := "k.pem", dialTimeout := 2000000000,
        dialKeepAlive := 2000000000, headerTimeoutPerRequest := 2000000000 } =
      (some ⟨some ⟨["http://a:2379"],
        Transport.tlsCustom ⟨[⟨"c.pem,k.pem"⟩], none⟩ 2000000000 2000000000,
        2000000000⟩⟩, none) ∧
    NewClientV3 fixLoadKP fixReadF fixEn3 ["http://a:2379"]
      { cert := "c.pem", key := "k.pem", dialTimeout := 2000000000,
        dialKeepAlive := 2000000000, headerTimeoutPerRequest := 2000000000 } =
      (some ⟨some ⟨["http://a:2379"], 2000000000, 2000000000, 2000000000,
        some ⟨[⟨"c.pem,k.pem"⟩], none⟩⟩, 2000000000⟩, none) := by
  have h := c9_tls_credential_errors fixLoadKP fixLoadKPbad fixReadF fixEn2
    fixEn3 ["http://a:2379"]
    { cert := "c.pem", key := "k.pem", dialTimeout := 2000000000,
      dialKeepAlive := 2000000000, headerTimeoutPerRequest := 2000000000 }
    ⟨"c.pem,k.pem"⟩ (GoErr.keyPairErr "bad pair")
    (by decide) (by decide) rfl rfl rfl (fun _ => rfl) (fun _ => rfl)
    (by decide) (by decide) (by decide)
  simpa using h

theorem newClient_ignores_dkat
    (lk : String → String → Except GoErr TLSCertificate)
    (rf : String → Option String) (en2 : EtcdV2Config → Option GoErr)
    (machines : List String) (o : ClientOptions) (d : Int) :
    NewClient lk rf en2 machines { o with dialKeepAliveTimeout := d } =
    NewClient lk rf en2 machines o := by
  obtain ⟨f1, f2, f3, f4, f5, f6, f7⟩ := o
  rcases eq_or_ne f4 0 with h4 | h4 <;> rcases eq_or_ne f5 0 with h5 | h5 <;>
    rcases eq_or_ne f7 0 with h7 | h7 <;>
      simp [NewClient, buildTransportV2, h4, h5, h7]

theorem newClientV3_ignores_dkat
    (lk : String → String → Except GoErr TLSCertificate)
    (rf : String → Option String) (en3 : EtcdV3Config → Option GoErr)
    (machines : List String) (o : ClientOptions) (d : Int) :
    NewClientV3 lk rf en3 machines { o with dialKeepAliveTimeout := d } =
    NewClientV3 lk rf en3 machines o := by
  obtain ⟨f1, f2, f3, f4, f5, f6, f7⟩ := o
  rcases eq_or_ne f4 0 with h4 | h4 <;> rcases eq_or_ne f5 0 with h5 | h5 <;>
    rcases eq_or_ne f7 0 with h7 | h7 <;>
      simp [NewClientV3, buildTLSConfigV3, h4, h5, h7]

theorem newClientV3_inversion
    (lk : String → String → Except GoErr TLSCertificate)
    (rf : String → Option String) (en3 : EtcdV3Config → Option GoErr)
    (machines : List String) (o : ClientOptions) (c : GoClientV3)
    (cfg : EtcdV3Config)
    (hc : (NewClientV3 lk rf en3 machines o).1 = some c)
    (hcfg : c.client = some cfg) :
    c.timeout = (if o.headerTimeoutPerRequest = 0 then defaultTTL
      else o.headerTimeoutPerRequest) ∧
    cfg.dialKeepAliveTimeout = c.timeout := by
  obtain ⟨f1, f2, f3, f4, f5, f6, f7⟩ := o
  obtain ⟨cc, ct⟩ := c
  rcases eq_or_ne f4 0 with h4 | h4 <;> rcases eq_or_ne f5 0 with h5 | h5 <;>
    rcases eq_or_ne f7 0 with h7 | h7 <;>
      simp only [NewClientV3, h4, h5, h7] at hc <;>
      simp [h4, h5, h7] at hc <;>
      split at hc <;> (try split at hc) <;> simp_all <;>
      (rw [← hc.1]; exact hc.2)

/-- Claim C10: the v3 constructor installs the defaulted
HeaderTimeoutPerRequest both as the connection config's DialKeepAliveTimeout
and as the client's per-call timeout, GetEntries reads the store only at
that per-call timeout, and the separate ClientOptions.DialKeepAliveTimeout
field is read by neither constructor (changing it changes neither
construction). -/
theorem c10_header_timeout_reuse
    (loadKP : String → String → Except GoErr TLSCertificate)
    (readF : String → Option String)
    (en2 : EtcdV2Config → Option GoErr) (en3 : EtcdV3Config → Option GoErr)
    (machines : List String) (opts : ClientOptions) (d : Int)
    (c : GoClientV3) (cfg : EtcdV3Config)
    (hc : (NewClientV3 loadKP readF en3 machines opts).1 = some c)
    (hcfg : c.client = some cfg)
    (s1 s2 : Int → String → Except GoErr RangeResponse) (k : String)
    (hagree : ∀ q, s1 c.timeout q = s2 c.timeout q) :
    NewClient loadKP readF en2 machines
      { opts with dialKeepAliveTimeout := d } =
      NewClient loadKP readF en2 machines opts ∧
    NewClientV3 loadKP readF en3 machines
      { opts with dialKeepAliveTimeout := d } =
      NewClientV3 loadKP readF en3 machines opts ∧
    c.timeout = (if opts.headerTimeoutPerRequest = 0 then defaultTTL
      else opts.headerTimeoutPerRequest) ∧
    cfg.dialKeepAliveTimeout = c.timeout ∧
    GetEntriesV3 s1 c k = GetEntriesV3 s2 c k := by
  obtain ⟨ht, hkat⟩ :=
    newClientV3_inversion loadKP readF en3 machines opts c cfg hc hcfg
  refine ⟨newClient_ignores_dkat loadKP readF en2 machines opts d,
    newClientV3_ignores_dkat loadKP readF en3 machines opts d, ht, hkat, ?_⟩
  simp only [GetEntriesV3, hcfg, hagree k]

/-- The v3 connection config the constructor builds for a 2s header timeout
and otherwise empty options, used by the claim C10 run. -/
def c10cfg : EtcdV3Config :=
  { endpoints := ["http://a:2379"], dialTimeout := defaultTTL,
    dialKeepAliveTime := defaultTTL, dialKeepAliveTimeout := 2000000000,
    tls := none }

/-- The v3 client the constructor returns for that configuration. -/
def c10client : GoClientV3 := { client := some c10cfg, timeout := 2000000000 }

/-- A store that answers only requests carrying the 2s per-call timeout. -/
def c10s1 : Int → String → Except GoErr RangeResponse :=
  fun t _ =>
    if t = 2000000000 then
      Except.ok { kvs := [{ key := "k", value := "a" }], count := 1 }
    else Except.error (GoErr.storeErr "s1 off-timeout")

/-- A second store agreeing with the first one only at the 2s timeout. -/
def c10s2 : Int → String → Except GoErr RangeResponse :=
  fun t _ =>
    if t = 2000000000 then
      Except.ok { kvs := [{ key := "k", value := "a" }], count := 1 }
    else Except.error (GoErr.storeErr "s2 off-timeout")

/-- Concrete run of claim C10 with a 2s header timeout and two stores that
agree only at that timeout. -/
theorem c10_witness :
    NewClient fixLoadKP fixReadF fixEn2 ["http://a:2379"]
      { headerTimeoutPerRequest := 2000000000, dialKeepAliveTimeout := 5 } =
      NewClient fixLoadKP fixReadF fixEn2 ["http://a:2379"]
        { headerTimeoutPerRequest := 2000000000 } ∧
    NewClientV3 fixLoadKP fixReadF fixEn3 ["http://a:2379"]
      { headerTimeoutPerRequest := 2000000000, dialKeepAliveTimeout := 5 } =
      NewClientV3 fixLoadKP fixReadF fixEn3 ["http://a:2379"]
        { headerTimeoutPerRequest := 2000000000 } ∧
    c10client.timeout = 2000000000 ∧
    c10cfg.dialKeepAliveTimeout = 2000000000 ∧
    GetEntriesV3 c10s1 c10client "svc" = GetEntriesV3 c10s2 c10client "svc" := by
  have h := c10_header_timeout_reuse fixLoadKP fixReadF fixEn2 fixEn3
    ["http://a:2379"] { headerTimeoutPerRequest := 2000000000 } 5
    c10client c10cfg rfl rfl c10s1 c10s2 "svc" (fun q => rfl)
  simpa using h
